import Mathlib

/-!
Verification of the Quotes API backend (src/main.py) against its specification.

The service stores quote documents in a single MongoDB collection named
"quote".  We embed the document model shallowly: a document is an ordered
association list from field names to BSON-like values, a collection is a
list of documents (in storage/insertion order), and the optional global
database handle becomes an `Option` over the collection.  Side effects
(insertion, seeding) are modelled by explicitly returning the new
collection state; randomness (Mongo's `$sample`) and per-insert failures
are modelled by explicit parameters.

The repository imports `database.py` and `schemas.py`, which are not part
of the source tree; those collaborators (`create_document`,
`get_documents`, `QuoteSchema`) are modelled from the specification's §6
interface description, and each such definition is marked
`Modelled from the spec:` in its doc comment.
-/

namespace QuotesApi

/-- BSON-like values that appear in stored quote documents.  `oid` is a
storage-assigned ObjectId carrying its string (hex) rendering; `dt` is a
datetime value carrying the string its `isoformat()` method returns. -/
inductive Value where
  | vnull : Value
  | vstr (s : String) : Value
  | oid (hex : String) : Value
  | dt (iso : String) : Value
  | vlist (l : List String) : Value
  deriving DecidableEq, Repr

/-- Python truthiness of a value, as used by `if d.get("_id"):` and
`if tag:` — None and empty strings/lists are falsy, ObjectIds and
datetimes are truthy. -/
def Value.truthy : Value → Bool
  | .vnull => false
  | .vstr s => s ≠ ""
  | .oid _ => true
  | .dt _ => true
  | .vlist l => l ≠ []

/-- Whether the value has an `isoformat` attribute (datetimes do). -/
def Value.hasIsoformat : Value → Bool
  | .dt _ => true
  | _ => false

/-- Result of calling `isoformat()` on a datetime value (its ISO-8601
rendering); other values are unaffected by serialisation so the default
branch is never reached on them. -/
def Value.isoformat : Value → String
  | .dt iso => iso
  | _ => ""

/-- Python `str()` of a value, as applied to the popped `_id`. -/
def Value.pyStr : Value → String
  | .vnull => "None"
  | .vstr s => s
  | .oid hex => hex
  | .dt iso => iso
  | .vlist _ => ""

/-- A stored document: an ordered mapping from field names to values
(Python dict semantics, keys unique in practice). -/
abbrev Doc := List (String × Value)

/-- Dictionary lookup `d.get(k)` (first occurrence). -/
def dictGet (d : Doc) (k : String) : Option Value :=
  (d.find? (fun p => p.1 == k)).map Prod.snd

/-- Dictionary removal `d.pop(k)`. -/
def dictPop (d : Doc) (k : String) : Doc :=
  d.filter (fun p => p.1 ≠ k)

/-- Dictionary update `d[k] = v`: updates in place when the key exists,
otherwise appends at the end (Python dict insertion order). -/
def dictSet (d : Doc) (k : String) (v : Value) : Doc :=
  if d.any (fun p => p.1 == k) then
    d.map (fun p => if p.1 == k then (k, v) else p)
  else d ++ [(k, v)]

/-- Embedding of `serialize_doc` (src/main.py lines 29–37): copy the
document; if it has a truthy `_id`, pop it and store its string form
under `id`; then replace every value that has an `isoformat` attribute by
its ISO-8601 string.  The Python function works on `dict(doc)`, a copy,
so it is pure; in Lean purity holds by construction. -/
def serialize_doc (doc : Doc) : Doc :=
  let d := doc
  let d :=
    match dictGet d "_id" with
    | some v => if v.truthy then dictSet (dictPop d "_id") "id" (.vstr v.pyStr) else d
    | none => d
  d.map (fun p => (p.1, if p.2.hasIsoformat then .vstr p.2.isoformat else p.2))

/-- MongoDB filter documents used by the service: either the empty filter
`{}` or `{"tags": {"$in": [tag]}}`. -/
inductive Filter where
  | all : Filter
  | tagsIn (tag : String) : Filter
  deriving DecidableEq, Repr

/-- Mongo matching semantics for the two filters: `{}` matches every
document; `{"tags": {"$in": [t]}}` matches a document whose `tags` field
is an array containing `t` (or a scalar equal to `t`). -/
def Filter.matches : Filter → Doc → Bool
  | .all, _ => true
  | .tagsIn t, d =>
    match dictGet d "tags" with
    | some (.vlist l) => l.contains t
    | some (.vstr s) => s == t
    | _ => false

/-- The `filter_dict = {}` / `if tag: filter_dict = {"tags": {"$in": [tag]}}`
pattern appearing identically at src/main.py lines 99–101, 108–110 and
276–278.  Python truthiness: `None` and `""` leave the empty filter. -/
def tagFilter (tag : Option String) : Filter :=
  match tag with
  | some t => if t ≠ "" then .tagsIn t else .all
  | none => .all

/-- Embedding of the pydantic request model `QuoteCreate`
(src/main.py lines 22–26): absent body fields take the declared
defaults, so a body setting only `text` elaborates via the defaults. -/
structure QuoteCreate where
  text : String
  author : Option String := some "Unknown"
  tags : List String := []
  template : Option String := none
  deriving DecidableEq, Repr

/-- Modelled from the spec: `Quote` (`QuoteSchema`) from schemas.py is not
under src/; per §3 it carries `text`, optional `author`, `tags` and
optional `template`, passed through from the creation payload. -/
structure QuoteSchema where
  text : String
  author : Option String := none
  tags : List String := []
  template : Option String := none
  deriving DecidableEq, Repr

/-- The stored document a schema record becomes on insertion, with the
storage-assigned ObjectId. -/
def QuoteSchema.toDoc (q : QuoteSchema) (newId : String) : Doc :=
  [("_id", .oid newId), ("text", .vstr q.text),
   ("author", match q.author with | some a => .vstr a | none => .vnull),
   ("tags", .vlist q.tags),
   ("template", match q.template with | some t => .vstr t | none => .vnull)]

/-- Modelled from the spec: `create_document` from database.py is not under
src/; per §6 `insert(collection, record) -> id` appends the record to the
collection and returns its newly assigned identifier.  The caller
supplies the storage-generated ObjectId string `newId`. -/
def create_document (coll : List Doc) (q : QuoteSchema) (newId : String) :
    String × List Doc :=
  (newId, coll ++ [q.toDoc newId])

/-- Modelled from the spec: `get_documents` from database.py is not under
src/; per §6 `find(collection, filter, limit)` returns the records
matching the filter in the storage layer's natural (insertion) order,
capped at `limit` results. -/
def get_documents (coll : List Doc) (f : Filter) (limit : Nat) : List Doc :=
  (coll.filter f.matches).take limit

/-- Seed catalog records 1–36 of src/main.py lines 115–259
(the catalog is split into parts only to keep elaboration fast). -/
def seedsPart1 : List QuoteSchema :=
[
  { text := "The only limit to our realization of tomorrow is our doubts of today.", author := some "Franklin D. Roosevelt", tags := ["inspiration", "future"] },
  { text := "Believe you can and you're halfway there.", author := some "Theodore Roosevelt", tags := ["confidence", "motivation"] },
  { text := "Do what you can, with what you have, where you are.", author := some "Theodore Roosevelt", tags := ["action"] },
  { text := "It always seems impossible until it's done.", author := some "Nelson Mandela", tags := ["perseverance"] },
  { text := "Whether you think you can or you think you can't, you're right.", author := some "Henry Ford", tags := ["mindset", "belief"] },
  { text := "Act as if what you do makes a difference. It does.", author := some "William James", tags := ["impact", "action"] },
  { text := "Success is not final, failure is not fatal: it is the courage to continue that counts.", author := some "Winston Churchill", tags := ["success", "resilience"] },
  { text := "What we think, we become.", author := some "Buddha", tags := ["mindset"] },
  { text := "Everything you can imagine is real.", author := some "Pablo Picasso", tags := ["creativity"] },
  { text := "Well done is better than well said.", author := some "Benjamin Franklin", tags := ["action"] },
  { text := "You must be the change you wish to see in the world.", author := some "Mahatma Gandhi", tags := ["change", "leadership"] },
  { text := "In the middle of difficulty lies opportunity.", author := some "Albert Einstein", tags := ["opportunity", "resilience"] },
  { text := "Happiness is not by chance, but by choice.", author := some "Jim Rohn", tags := ["happiness", "choice"] },
  { text := "Dream big and dare to fail.", author := some "Norman Vaughan", tags := ["dreams", "risk"] },
  { text := "The best way out is always through.", author := some "Robert Frost", tags := ["perseverance"] },
  { text := "If I cannot do great things, I can do small things in a great way.", author := some "Martin Luther King Jr.", tags := ["excellence", "action"] },
  { text := "If you're going through hell, keep going.", author := some "Winston Churchill", tags := ["resilience"] },
  { text := "You miss 100% of the shots you don't take.", author := some "Wayne Gretzky", tags := ["action", "risk"] },
  { text := "The future depends on what you do today.", author := some "Mahatma Gandhi", tags := ["future", "action"] },
  { text := "It does not matter how slowly you go as long as you do not stop.", author := some "Confucius", tags := ["perseverance"] },
  { text := "Everything you’ve ever wanted is on the other side of fear.", author := some "George Addair", tags := ["courage", "fear"] },
  { text := "Don’t watch the clock; do what it does. Keep going.", author := some "Sam Levenson", tags := ["perseverance", "time"] },
  { text := "The secret of getting ahead is getting started.", author := some "Mark Twain", tags := ["action", "beginnings"] },
  { text := "If opportunity doesn’t knock, build a door.", author := some "Milton Berle", tags := ["opportunity", "initiative"] },
  { text := "Perseverance is not a long race; it is many short races one after the other.", author := some "Walter Elliot", tags := ["perseverance"] },
  { text := "Quality is not an act, it is a habit.", author := some "Aristotle", tags := ["excellence", "habits"] },
  { text := "Strive not to be a success, but rather to be of value.", author := some "Albert Einstein", tags := ["success", "value"] },
  { text := "Try not to become a man of success, but rather try to become a man of value.", author := some "Albert Einstein", tags := ["success", "value"] },
  { text := "The best revenge is massive success.", author := some "Frank Sinatra", tags := ["success", "motivation"] },
  { text := "What you get by achieving your goals is not as important as what you become by achieving your goals.", author := some "Zig Ziglar", tags := ["goals", "growth"] },
  { text := "I am not a product of my circumstances. I am a product of my decisions.", author := some "Stephen R. Covey", tags := ["choice", "mindset"] },
  { text := "Setting goals is the first step in turning the invisible into the visible.", author := some "Tony Robbins", tags := ["goals", "action"] },
  { text := "If you can dream it, you can do it.", author := some "Walt Disney", tags := ["dreams", "action"] },
  { text := "I didn’t fail the test. I just found 100 ways to do it wrong.", author := some "Benjamin Franklin", tags := ["learning", "failure"] },
  { text := "Either you run the day, or the day runs you.", author := some "Jim Rohn", tags := ["productivity", "habits"] },
  { text := "The harder you work for something, the greater you’ll feel when you achieve it.", author := some "Unknown", tags := ["work", "achievement"] }
]

/-- Seed catalog records 37–72 of src/main.py lines 115–259
(the catalog is split into parts only to keep elaboration fast). -/
def seedsPart2 : List QuoteSchema :=
[
  { text := "Don’t limit your challenges. Challenge your limits.", author := some "Unknown", tags := ["challenge", "growth"] },
  { text := "Little by little, one travels far.", author := some "J.R.R. Tolkien", tags := ["progress", "patience"] },
  { text := "It’s not whether you get knocked down; it’s whether you get up.", author := some "Vince Lombardi", tags := ["resilience"] },
  { text := "You are never too old to set another goal or to dream a new dream.", author := some "C.S. Lewis", tags := ["dreams", "goals"] },
  { text := "Start where you are. Use what you have. Do what you can.", author := some "Arthur Ashe", tags := ["action", "beginnings"] },
  { text := "Aim for the moon. If you miss, you may hit a star.", author := some "W. Clement Stone", tags := ["ambition", "optimism"] },
  { text := "The way to get started is to quit talking and begin doing.", author := some "Walt Disney", tags := ["action"] },
  { text := "Opportunities don't happen. You create them.", author := some "Chris Grosser", tags := ["opportunity", "initiative"] },
  { text := "Don’t be pushed by your problems. Be led by your dreams.", author := some "Ralph Waldo Emerson", tags := ["dreams", "mindset"] },
  { text := "Go the extra mile. It’s never crowded there.", author := some "Wayne Dyer", tags := ["excellence", "effort"] },
  { text := "A year from now you may wish you had started today.", author := some "Karen Lamb", tags := ["beginnings", "time"] },
  { text := "Failure is simply the opportunity to begin again, this time more intelligently.", author := some "Henry Ford", tags := ["failure", "learning"] },
  { text := "You become what you believe.", author := some "Oprah Winfrey", tags := ["belief", "mindset"] },
  { text := "Courage is grace under pressure.", author := some "Ernest Hemingway", tags := ["courage"] },
  { text := "Action is the foundational key to all success.", author := some "Pablo Picasso", tags := ["action", "success"] },
  { text := "Turn your wounds into wisdom.", author := some "Oprah Winfrey", tags := ["wisdom", "growth"] },
  { text := "If you want to lift yourself up, lift up someone else.", author := some "Booker T. Washington", tags := ["kindness", "leadership"] },
  { text := "It’s not the load that breaks you down, it’s the way you carry it.", author := some "Lou Holtz", tags := ["resilience", "mindset"] },
  { text := "The man who moves a mountain begins by carrying away small stones.", author := some "Confucius", tags := ["progress", "patience"] },
  { text := "Do what is right, not what is easy nor what is popular.", author := some "Roy T. Bennett", tags := ["integrity", "courage"] },
  { text := "Doubt kills more dreams than failure ever will.", author := some "Suzy Kassem", tags := ["fear", "mindset"] },
  { text := "The only way to do great work is to love what you do.", author := some "Steve Jobs", tags := ["work", "passion"] },
  { text := "We are what we repeatedly do. Excellence, then, is not an act, but a habit.", author := some "Will Durant", tags := ["excellence", "habits"] },
  { text := "If people are doubting how far you can go, go so far that you can’t hear them anymore.", author := some "Michele Ruiz", tags := ["confidence", "focus"] },
  { text := "Don’t wait for opportunity. Create it.", author := some "Unknown", tags := ["opportunity", "initiative"] },
  { text := "If you want to achieve greatness stop asking for permission.", author := some "Unknown", tags := ["ambition", "courage"] },
  { text := "I can and I will. Watch me.", author := some "Carrie Green", tags := ["confidence", "determination"] },
  { text := "Difficult roads often lead to beautiful destinations.", author := some "Unknown", tags := ["perseverance", "optimism"] },
  { text := "Great things are done by a series of small things brought together.", author := some "Vincent Van Gogh", tags := ["progress", "craft"] },
  { text := "Success usually comes to those who are too busy to be looking for it.", author := some "Henry David Thoreau", tags := ["success", "work"] },
  { text := "Do one thing every day that scares you.", author := some "Eleanor Roosevelt", tags := ["courage", "growth"] },
  { text := "If you’re offered a seat on a rocket ship, don’t ask what seat! Just get on.", author := some "Sheryl Sandberg", tags := ["opportunity", "action"] },
  { text := "If you want something you’ve never had, you must be willing to do something you’ve never done.", author := some "Thomas Jefferson", tags := ["change", "risk"] },
  { text := "Energy and persistence conquer all things.", author := some "Benjamin Franklin", tags := ["energy", "perseverance"] },
  { text := "Hardships often prepare ordinary people for an extraordinary destiny.", author := some "C.S. Lewis", tags := ["resilience", "destiny"] },
  { text := "Keep your eyes on the stars and your feet on the ground.", author := some "Theodore Roosevelt", tags := ["ambition", "humility"] }
]

/-- Seed catalog records 73–108 of src/main.py lines 115–259
(the catalog is split into parts only to keep elaboration fast). -/
def seedsPart3 : List QuoteSchema :=
[
  { text := "We can do anything we want to if we stick to it long enough.", author := some "Helen Keller", tags := ["perseverance", "focus"] },
  { text := "The only person you should try to be better than is the person you were yesterday.", author := some "Unknown", tags := ["growth", "self"] },
  { text := "I never lose. I either win or learn.", author := some "Nelson Mandela", tags := ["learning", "mindset"] },
  { text := "It always seems impossible until it’s done.", author := some "Nelson Mandela", tags := ["perseverance"] },
  { text := "Opportunities multiply as they are seized.", author := some "Sun Tzu", tags := ["opportunity", "strategy"] },
  { text := "Genius is 1% inspiration and 99% perspiration.", author := some "Thomas Edison", tags := ["work", "innovation"] },
  { text := "If you fell down yesterday, stand up today.", author := some "H.G. Wells", tags := ["resilience"] },
  { text := "Your big opportunity may be right where you are now.", author := some "Napoleon Hill", tags := ["opportunity", "focus"] },
  { text := "Keep going. Everything you need will come to you at the perfect time.", author := some "Unknown", tags := ["patience", "perseverance"] },
  { text := "The key to success is to start before you are ready.", author := some "Marie Forleo", tags := ["action", "success"] },
  { text := "Dreams don’t work unless you do.", author := some "John C. Maxwell", tags := ["work", "dreams"] },
  { text := "Stay hungry. Stay foolish.", author := some "Steve Jobs", tags := ["curiosity", "growth"] },
  { text := "Make each day your masterpiece.", author := some "John Wooden", tags := ["excellence", "habits"] },
  { text := "Do something today that your future self will thank you for.", author := some "Unknown", tags := ["future", "habits"] },
  { text := "If you get tired, learn to rest, not to quit.", author := some "Banksy", tags := ["rest", "resilience"] },
  { text := "Success is the sum of small efforts, repeated day in and day out.", author := some "Robert Collier", tags := ["habits", "success"] },
  { text := "You don’t have to be great to start, but you have to start to be great.", author := some "Zig Ziglar", tags := ["beginnings", "growth"] },
  { text := "Work hard in silence, let success make the noise.", author := some "Frank Ocean", tags := ["work", "success"] },
  { text := "Be so good they can’t ignore you.", author := some "Steve Martin", tags := ["excellence", "craft"] },
  { text := "Don’t stop until you’re proud.", author := some "Unknown", tags := ["perseverance", "pride"] },
  { text := "Focus on being productive instead of busy.", author := some "Tim Ferriss", tags := ["productivity", "focus"] },
  { text := "The best preparation for tomorrow is doing your best today.", author := some "H. Jackson Brown Jr.", tags := ["excellence", "present"] },
  { text := "The harder the conflict, the greater the triumph.", author := some "George Washington", tags := ["resilience", "victory"] },
  { text := "If you want to go fast, go alone. If you want to go far, go together.", author := some "African Proverb", tags := ["teamwork", "leadership"] },
  { text := "A goal is a dream with a deadline.", author := some "Napoleon Hill", tags := ["goals", "planning"] },
  { text := "Discipline is the bridge between goals and accomplishment.", author := some "Jim Rohn", tags := ["discipline", "goals"] },
  { text := "Success is walking from failure to failure with no loss of enthusiasm.", author := some "Winston Churchill", tags := ["success", "resilience"] },
  { text := "If you cannot do great things, do small things in a great way.", author := some "Napoleon Hill", tags := ["excellence", "action"] },
  { text := "The best time to plant a tree was 20 years ago. The second best time is now.", author := some "Chinese Proverb", tags := ["time", "action"] },
  { text := "Believe in yourself and all that you are.", author := some "Christian D. Larson", tags := ["belief", "confidence"] },
  { text := "The only place where success comes before work is in the dictionary.", author := some "Vidal Sassoon", tags := ["work", "success"] },
  { text := "You are what you do, not what you say you’ll do.", author := some "Carl Jung", tags := ["action", "integrity"] },
  { text := "Success is not in what you have, but who you are.", author := some "Bo Bennett", tags := ["success", "character"] },
  { text := "What lies behind us and what lies before us are tiny matters compared to what lies within us.", author := some "Ralph Waldo Emerson", tags := ["inner", "strength"] },
  { text := "If you can’t fly then run, if you can’t run then walk, if you can’t walk then crawl, but whatever you do you have to keep moving forward.", author := some "Martin Luther King Jr.", tags := ["perseverance", "progress"] },
  { text := "He who has a why to live can bear almost any how.", author := some "Friedrich Nietzsche", tags := ["purpose", "resilience"] }
]

/-- Seed catalog records 109–143 of src/main.py lines 115–259
(the catalog is split into parts only to keep elaboration fast). -/
def seedsPart4 : List QuoteSchema :=
[
  { text := "The only way out is through.", author := some "Robert Frost", tags := ["perseverance"] },
  { text := "What we fear of doing most is usually what we most need to do.", author := some "Ralph Waldo Emerson", tags := ["courage", "fear"] },
  { text := "If you don't like the road you're walking, start paving another one.", author := some "Dolly Parton", tags := ["change", "action"] },
  { text := "We become what we think about.", author := some "Earl Nightingale", tags := ["mindset", "focus"] },
  { text := "Great things never come from comfort zones.", author := some "Unknown", tags := ["growth", "comfort"] },
  { text := "Success is a journey, not a destination.", author := some "Arthur Ashe", tags := ["success", "journey"] },
  { text := "Your time is limited, don’t waste it living someone else’s life.", author := some "Steve Jobs", tags := ["time", "authenticity"] },
  { text := "If you want to be the best, you must be willing to do things that other people aren’t willing to do.", author := some "Michael Phelps", tags := ["excellence", "work"] },
  { text := "A river cuts through rock, not because of its power, but because of its persistence.", author := some "James N. Watkins", tags := ["perseverance", "patience"] },
  { text := "Success isn’t owned, it’s leased. And rent is due every day.", author := some "J.J. Watt", tags := ["discipline", "success"] },
  { text := "Be yourself; everyone else is already taken.", author := some "Oscar Wilde", tags := ["authenticity"] },
  { text := "You have power over your mind—not outside events. Realize this, and you will find strength.", author := some "Marcus Aurelius", tags := ["stoicism", "mindset"] },
  { text := "The obstacle is the way.", author := some "Marcus Aurelius", tags := ["stoicism", "resilience"] },
  { text := "Fortune favors the bold.", author := some "Virgil", tags := ["courage", "action"] },
  { text := "We are what we repeatedly do. Excellence, then, is not an act but a habit.", author := some "Aristotle", tags := ["excellence", "habits"] },
  { text := "To live is the rarest thing in the world. Most people exist, that is all.", author := some "Oscar Wilde", tags := ["life", "mindfulness"] },
  { text := "What you do speaks so loudly that I cannot hear what you say.", author := some "Ralph Waldo Emerson", tags := ["integrity", "action"] },
  { text := "If you want to live a happy life, tie it to a goal, not to people or things.", author := some "Albert Einstein", tags := ["happiness", "goals"] },
  { text := "Success is getting what you want. Happiness is wanting what you get.", author := some "Dale Carnegie", tags := ["success", "happiness"] },
  { text := "The purpose of our lives is to be happy.", author := some "Dalai Lama", tags := ["happiness", "purpose"] },
  { text := "The only impossible journey is the one you never begin.", author := some "Tony Robbins", tags := ["action", "journey"] },
  { text := "Not all those who wander are lost.", author := some "J.R.R. Tolkien", tags := ["adventure", "journey"] },
  { text := "The journey of a thousand miles begins with one step.", author := some "Lao Tzu", tags := ["beginnings", "journey"] },
  { text := "Life is what happens when you’re busy making other plans.", author := some "John Lennon", tags := ["life", "mindfulness"] },
  { text := "You only live once, but if you do it right, once is enough.", author := some "Mae West", tags := ["life", "mindfulness"] },
  { text := "Keep your face always toward the sunshine—and shadows will fall behind you.", author := some "Walt Whitman", tags := ["optimism"] },
  { text := "Believe and act as if it were impossible to fail.", author := some "Charles Kettering", tags := ["belief", "action"] },
  { text := "What we achieve inwardly will change outer reality.", author := some "Plutarch", tags := ["mindset", "change"] },
  { text := "If you judge people, you have no time to love them.", author := some "Mother Teresa", tags := ["kindness", "love"] },
  { text := "Do what you feel in your heart to be right, for you’ll be criticized anyway.", author := some "Eleanor Roosevelt", tags := ["courage", "authenticity"] },
  { text := "Keep moving forward.", author := some "Walt Disney", tags := ["progress", "perseverance"] },
  { text := "Success is never owned, it’s rented – and rent is due every day.", author := some "Rory Vaden", tags := ["discipline", "success"] },
  { text := "If you want light to come into your life, you need to stand where it is shining.", author := some "Guy Finley", tags := ["mindset", "positivity"] },
  { text := "A ship is safe in harbor, but that’s not what ships are for.", author := some "John A. Shedd", tags := ["risk", "purpose"] },
  { text := "The grass is greener where you water it.", author := some "Neil Barringham", tags := ["focus", "habits"] }
]

/-- The fixed, hardcoded catalog of pre-authored quotes inserted by
`seed_quotes_if_empty` (src/main.py lines 115–259), in source order. -/
def seeds : List QuoteSchema :=
  seedsPart1 ++ seedsPart2 ++ seedsPart3 ++ seedsPart4

/-- Mongo `count_documents(filter)` on the quote collection. -/
def count_documents (coll : List Doc) (f : Filter) : Nat :=
  (coll.filter f.matches).length

/-- An HTTP error raised by a handler (`HTTPException(status_code, detail)`). -/
structure HTTPError where
  status_code : Nat
  detail : String
  deriving DecidableEq, Repr

/-- Embedding of the handler `create_quote` (src/main.py lines 86–92):
fails with 500 when the database handle is absent; otherwise builds the
schema record from the payload's fields, inserts it, and answers
`{"id": inserted_id}`.  Returns the response together with the new
database state. -/
def create_quote (db : Option (List Doc)) (payload : QuoteCreate)
    (newId : String) : Except HTTPError Doc × Option (List Doc) :=
  match db with
  | none => (.error ⟨500, "Database not configured"⟩, none)
  | some coll =>
    let quote : QuoteSchema :=
      { text := payload.text, author := payload.author,
        tags := payload.tags, template := payload.template }
    let r := create_document coll quote newId
    (.ok [("id", .vstr r.1)], some r.2)

/-- Embedding of the handler `list_quotes` (src/main.py lines 95–103):
fails with 500 when the database handle is absent; otherwise builds the
tag filter (empty when `tag` is falsy), fetches up to `limit` matching
documents and serialises each. -/
def list_quotes (db : Option (List Doc)) (tag : Option String)
    (limit : Nat) : Except HTTPError (List Doc) :=
  match db with
  | none => .error ⟨500, "Database not configured"⟩
  | some coll =>
    let filter_dict := tagFilter tag
    let docs := get_documents coll filter_dict limit
    .ok (docs.map serialize_doc)

/-- Embedding of `seed_quotes_if_empty` (src/main.py lines 106–265):
counts the documents matching the (optionally tag-restricted) filter; if
any exist it returns unchanged, otherwise it inserts the fixed seed
catalog one record at a time, catching and ignoring each insertion
failure (`try`/`except`/`pass`).  `fails i = true` means the insert of
the i-th seed raises; `newIds i` is the ObjectId the storage layer
assigns to the i-th seed.  The routine is total: no error ever
propagates to the caller. -/
def seed_quotes_if_empty (coll : List Doc) (tag : Option String)
    (fails : Nat → Bool) (newIds : Nat → String) : List Doc :=
  let count_filter := tagFilter tag
  let existing := count_documents coll count_filter
  if existing > 0 then coll
  else
    seeds.enum.foldl
      (fun acc p => if fails p.1 then acc else (create_document acc p.2 (newIds p.1)).2)
      coll

/-- Mongo `{"$sample": {"size": 1}}` aggregation stage: one uniformly
sampled document of the input when it is nonempty, nothing otherwise.
The sampled position is supplied by `pick` (taken modulo the length). -/
def sampleOne (pick : Nat) (l : List Doc) : List Doc :=
  if l = [] then [] else [l.getD (pick % l.length) []]

/-- Embedding of the handler `random_quote` (src/main.py lines 268–285):
fails with 500 when the database handle is absent; otherwise seeds if
empty, runs the `$match` (only when `tag` is truthy) and `$sample`
pipeline, answers 404 when no document comes back, and otherwise the
sampled document serialised.  Returns the response with the new state. -/
def random_quote (db : Option (List Doc)) (tag : Option String)
    (fails : Nat → Bool) (newIds : Nat → String) (pick : Nat) :
    Except HTTPError Doc × Option (List Doc) :=
  match db with
  | none => (.error ⟨500, "Database not configured"⟩, none)
  | some coll =>
    let coll' := seed_quotes_if_empty coll tag fails newIds
    let pipelineFilter := tagFilter tag
    let docs := sampleOne pick (coll'.filter pipelineFilter.matches)
    match docs with
    | [] => (.error ⟨404, "No quotes available for the specified filter"⟩, some coll')
    | d :: _ => (.ok (serialize_doc d), some coll')

/-- Response body of the `/test` endpoint. -/
structure HealthResponse where
  backend : String
  database : String
  database_url : Option String
  database_name : Option String
  connection_status : String
  collections : List String
  deriving DecidableEq, Repr

/-- The `name` attribute of the pymongo database handle, when present
(`getattr(db, "name", "✅ Connected")`). -/
structure DbHandle where
  name : Option String
  deriving DecidableEq, Repr

/-- Python string slicing `s[:n]`: the first n characters
(`str(e)[:50]` in the probe error handler). -/
def pyTruncate (s : String) (n : Nat) : String := ⟨s.data.take n⟩

/-- Embedding of the handler `test_database` (src/main.py lines 50–81).
`listNames` models the outcome of `db.list_collection_names()`: the
names it returns, or the message of the exception it raises (the only
probing step that can raise; its failure is caught and truncated into
the body).  `urlSet`/`nameSet` model whether the `DATABASE_URL` and
`DATABASE_NAME` environment variables are set — only their presence is
consumed.  The handler always returns a response, never an error. -/
def test_database (db : Option DbHandle)
    (listNames : Except String (List String)) (urlSet nameSet : Bool) :
    HealthResponse :=
  let response : HealthResponse :=
    { backend := "✅ Running", database := "❌ Not Available",
      database_url := none, database_name := none,
      connection_status := "Not Connected", collections := [] }
  let response :=
    match db with
    | some h =>
      let response := { response with
        database := "✅ Available",
        database_url := some "✅ Configured",
        database_name := some (h.name.getD "✅ Connected"),
        connection_status := "Connected" }
      match listNames with
      | .ok collections =>
        { response with
          collections := collections.take 10,
          database := "✅ Connected & Working" }
      | .error e =>
        { response with database := "⚠️  Connected but Error: " ++ pyTruncate e 50 }
    | none => { response with database := "⚠️  Available but not initialized" }
  { response with
    database_url := some (if urlSet then "✅ Set" else "❌ Not Set"),
    database_name := some (if nameSet then "✅ Set" else "❌ Not Set") }

/-- Embedding of the boundary-layer validation FastAPI performs for
`limit: int = Query(default=50, ge=1, le=200)` (src/main.py line 96): an
absent parameter becomes 50; a supplied value outside [1, 200] is
rejected with a validation error before the handler runs. -/
def parseLimit (raw : Option Int) : Except String Nat :=
  match raw with
  | none => .ok 50
  | some v =>
    if 1 ≤ v ∧ v ≤ 200 then .ok v.toNat
    else .error "Input validation failed for query parameter limit"

/-! Lemmas on the dictionary operations. -/

lemma dictGet_cons (p : String × Value) (d : Doc) (k : String) :
    dictGet (p :: d) k = if p.1 == k then some p.2 else dictGet d k := by
  simp only [dictGet, List.find?]
  cases h : (p.1 == k) <;> simp [h]

lemma dictGet_append (d₁ d₂ : Doc) (k : String) :
    dictGet (d₁ ++ d₂) k =
      match dictGet d₁ k with
      | some v => some v
      | none => dictGet d₂ k := by
  induction d₁ with
  | nil => simp [dictGet]
  | cons p d ih =>
    by_cases h : p.1 == k <;> simp [dictGet_cons, h, ih]

lemma dictGet_eq_none_of_not_any (d : Doc) (k : String)
    (h : d.any (fun p => p.1 == k) = false) : dictGet d k = none := by
  induction d with
  | nil => rfl
  | cons p d ih =>
    simp only [List.any_cons, Bool.or_eq_false_iff] at h
    simp [dictGet_cons, h.1, ih h.2]

lemma dictGet_updateMap (d : Doc) (k : String) (v : Value) (k' : String) :
    dictGet (d.map (fun p => if p.1 == k then (k, v) else p)) k' =
      if k' = k then (if d.any (fun p => p.1 == k) then some v else none)
      else dictGet d k' := by
  induction d with
  | nil => by_cases h : k' = k <;> simp [dictGet, h]
  | cons p d ih =>
    obtain ⟨a, b⟩ := p
    simp only [beq_iff_eq] at ih ⊢
    by_cases ha : a = k
    · subst ha
      by_cases hk : k' = a
      · subst hk
        simp [dictGet_cons, ih]
      · simp [dictGet_cons, ih, hk, Ne.symm hk]
    · by_cases hk : k' = k
      · subst hk
        have hb : (a == k') = false := by simp [ha]
        simp [dictGet_cons, ih, ha, Ne.symm ha]
        rw [hb, Bool.false_or]
      · simp [dictGet_cons, ih, ha, hk]

lemma dictGet_dictSet (d : Doc) (k : String) (v : Value) (k' : String) :
    dictGet (dictSet d k v) k' = if k' = k then some v else dictGet d k' := by
  by_cases hany : d.any (fun p => p.1 == k) = true
  · rw [dictSet, if_pos hany, dictGet_updateMap, hany]
    simp
  · have hf : d.any (fun p => p.1 == k) = false := by
      rwa [← Bool.not_eq_true]
    rw [dictSet, if_neg hany, dictGet_append]
    by_cases hk : k' = k
    · subst hk
      rw [dictGet_eq_none_of_not_any d k' hf]
      simp [dictGet_cons]
    · cases hg : dictGet d k' with
      | none => simp [dictGet_cons, dictGet, hk, Ne.symm hk]
      | some w => simp [hk]

lemma dictGet_dictPop (d : Doc) (k k' : String) :
    dictGet (dictPop d k) k' = if k' = k then none else dictGet d k' := by
  induction d with
  | nil => simp [dictGet, dictPop]
  | cons p d ih =>
    obtain ⟨a, b⟩ := p
    simp only [dictPop, decide_not] at ih ⊢
    by_cases ha : a = k
    · subst ha
      by_cases hk : k' = a
      · subst hk
        simp [List.filter_cons, ih]
      · simp [List.filter_cons, dictGet_cons, ih, hk, Ne.symm hk]
    · by_cases hk : k' = k
      · subst hk
        simp [List.filter_cons, dictGet_cons, ih, ha, Ne.symm ha]
      · simp [List.filter_cons, dictGet_cons, ih, ha, hk]

lemma dictGet_map_values (d : Doc) (g : Value → Value) (k : String) :
    dictGet (d.map (fun p => (p.1, g p.2))) k = (dictGet d k).map g := by
  induction d with
  | nil => rfl
  | cons p d ih =>
    by_cases h : p.1 == k <;> simp [dictGet_cons, h, ih]

/-- Conversion applied to every field value by the serialiser\x27s second
pass (datetimes become their ISO-8601 strings, the rest pass through). -/
def isoPass (v : Value) : Value :=
  if v.hasIsoformat then .vstr v.isoformat else v

lemma serialize_doc_eq (doc : Doc) (hex : String)
    (hid : dictGet doc "_id" = some (.oid hex)) :
    serialize_doc doc =
      (dictSet (dictPop doc "_id") "id" (.vstr hex)).map
        (fun p => (p.1, isoPass p.2)) := by
  simp only [serialize_doc]
  rw [hid]
  rfl

/-- C1: on every stored record carrying a storage-assigned `_id`, the
serialiser renames `_id` to `id` rendered as its string form, converts
every timestamp-typed field to its ISO-8601 string, and leaves every
other field untouched; the operation is pure by construction (the code
copies the record before rewriting it). -/
theorem serialize_doc_spec (doc : Doc) (hex : String)
    (hid : dictGet doc "_id" = some (.oid hex)) :
    dictGet (serialize_doc doc) "id" = some (.vstr hex) ∧
    dictGet (serialize_doc doc) "_id" = none ∧
    ∀ k, k ≠ "_id" → k ≠ "id" →
      dictGet (serialize_doc doc) k = (dictGet doc k).map isoPass := by
  rw [serialize_doc_eq doc hex hid]
  refine ⟨?_, ?_, ?_⟩
  · rw [dictGet_map_values, dictGet_dictSet]
    simp [isoPass, Value.hasIsoformat]
  · rw [dictGet_map_values, dictGet_dictSet, dictGet_dictPop]
    simp
  · intro k hk1 hk2
    rw [dictGet_map_values, dictGet_dictSet, dictGet_dictPop]
    simp [hk1, hk2]

/-- Witness for C1 at a concrete record with an identifier and a
timestamp field. -/
theorem serialize_doc_spec_witness :
    dictGet [("_id", Value.oid "64ffabc0123456789abcdef0"),
             ("text", Value.vstr "hello"),
             ("created_at", Value.dt "2024-01-02T03:04:05")] "_id"
        = some (Value.oid "64ffabc0123456789abcdef0") ∧
    dictGet (serialize_doc
        [("_id", Value.oid "64ffabc0123456789abcdef0"),
         ("text", Value.vstr "hello"),
         ("created_at", Value.dt "2024-01-02T03:04:05")]) "id"
        = some (Value.vstr "64ffabc0123456789abcdef0") ∧
    dictGet (serialize_doc
        [("_id", Value.oid "64ffabc0123456789abcdef0"),
         ("text", Value.vstr "hello"),
         ("created_at", Value.dt "2024-01-02T03:04:05")]) "created_at"
        = some (Value.vstr "2024-01-02T03:04:05") := by
  have h := serialize_doc_spec
    [("_id", Value.oid "64ffabc0123456789abcdef0"),
     ("text", Value.vstr "hello"),
     ("created_at", Value.dt "2024-01-02T03:04:05")]
    "64ffabc0123456789abcdef0" rfl
  refine ⟨rfl, h.1, ?_⟩
  rw [h.2.2 "created_at" (by decide) (by decide)]
  rfl

/-- C2: a creation request whose body sets only `text` builds, for
insertion, a record whose `author` is "Unknown", whose `tags` is the
empty sequence, and whose `template` is null, via the pydantic
defaults. -/
theorem create_quote_defaults (t : String) (coll : List Doc) (newId : String) :
    ({ text := t } : QuoteCreate).author = some "Unknown" ∧
    ({ text := t } : QuoteCreate).tags = [] ∧
    ({ text := t } : QuoteCreate).template = none ∧
    (create_quote (some coll) { text := t } newId).2 =
      some (coll ++ [[("_id", Value.oid newId), ("text", Value.vstr t),
                      ("author", Value.vstr "Unknown"),
                      ("tags", Value.vlist []),
                      ("template", Value.vnull)]]) :=
  ⟨rfl, rfl, rfl, rfl⟩

/-- C6: with the database handle absent, creation, listing and random
retrieval each fail immediately with HTTP 500 and the fixed message
"Database not configured", before any storage call (the returned state
is untouched). -/
theorem db_unconfigured_500 (payload : QuoteCreate) (newId : String)
    (tag : Option String) (limit : Nat) (fails : Nat → Bool)
    (newIds : Nat → String) (pick : Nat) :
    create_quote none payload newId =
      (.error ⟨500, "Database not configured"⟩, none) ∧
    list_quotes none tag limit = .error ⟨500, "Database not configured"⟩ ∧
    random_quote none tag fails newIds pick =
      (.error ⟨500, "Database not configured"⟩, none) :=
  ⟨rfl, rfl, rfl⟩

/-- C10: the empty-string tag is falsy in Python, so all three
filter-building sites produce the unfiltered query, behaving exactly as
when no tag is supplied; in particular every document matches the
resulting filter. -/
theorem empty_tag_unfiltered (db : Option (List Doc)) (limit : Nat)
    (coll : List Doc) (fails : Nat → Bool) (newIds : Nat → String)
    (pick : Nat) :
    tagFilter (some "") = Filter.all ∧
    (∀ d : Doc, (tagFilter (some "")).matches d = true) ∧
    list_quotes db (some "") limit = list_quotes db none limit ∧
    seed_quotes_if_empty coll (some "") fails newIds =
      seed_quotes_if_empty coll none fails newIds ∧
    random_quote db (some "") fails newIds pick =
      random_quote db none fails newIds pick :=
  ⟨rfl, fun _ => rfl, rfl, rfl, rfl⟩

/-- C3: listing with a (truthy) tag returns exactly the serialised
records whose `tags` contain it — no false positives and no false
negatives among the stored records — capped at `limit`. -/
theorem list_quotes_tag_filter (coll : List Doc) (X : String) (limit : Nat)
    (hX : X ≠ "") :
    list_quotes (some coll) (some X) limit =
      .ok (((coll.filter (Filter.tagsIn X).matches).take limit).map
        serialize_doc) ∧
    ∀ docs, list_quotes (some coll) (some X) limit = .ok docs →
      docs.length ≤ limit := by
  have hfil : tagFilter (some X) = .tagsIn X := by simp [tagFilter, hX]
  constructor
  · simp [list_quotes, get_documents, hfil]
  · intro docs hdocs
    simp only [list_quotes, get_documents, hfil] at hdocs
    have hd : docs =
        ((coll.filter (Filter.tagsIn X).matches).take limit).map
          serialize_doc := by
      cases hdocs
      rfl
    subst hd
    simp [List.length_take]

/-- Witness for C3: two matching records (tags ["a"] and ["b","a"]) and
one non-matching record; filtering by "a" returns exactly the two. -/
theorem list_quotes_tag_filter_witness :
    ("a" : String) ≠ "" ∧
    list_quotes (some [[("tags", Value.vlist ["a"])],
                       [("tags", Value.vlist ["b", "a"])],
                       [("tags", Value.vlist ["b"])]]) (some "a") 50 =
      .ok [[("tags", Value.vlist ["a"])],
           [("tags", Value.vlist ["b", "a"])]] := by
  refine ⟨by decide, ?_⟩
  rw [(list_quotes_tag_filter [[("tags", Value.vlist ["a"])],
        [("tags", Value.vlist ["b", "a"])],
        [("tags", Value.vlist ["b"])]] "a" 50 (by decide)).1]
  rfl

/-- Any single random-retrieval call on a configured database leaves the
collection in the state produced by the seeding step. -/
lemma random_quote_state (coll : List Doc) (tag : Option String)
    (fails : Nat → Bool) (newIds : Nat → String) (pick : Nat) :
    (random_quote (some coll) tag fails newIds pick).2 =
      some (seed_quotes_if_empty coll tag fails newIds) := by
  simp only [random_quote]
  cases sampleOne pick
      ((seed_quotes_if_empty coll tag fails newIds).filter
        (tagFilter tag).matches) <;> rfl

/-- C4: when at least one stored record matches the filter, the
seed-if-empty routine is a no-op; hence calling random retrieval twice
on an already populated collection leaves it (and so its record count)
unchanged. -/
theorem seed_noop_when_populated (coll : List Doc) (tag : Option String)
    (fails : Nat → Bool) (newIds : Nat → String)
    (h : 0 < count_documents coll (tagFilter tag)) :
    seed_quotes_if_empty coll tag fails newIds = coll ∧
    ∀ (pick pick' : Nat) (fails' : Nat → Bool) (newIds' : Nat → String),
      (random_quote (some coll) tag fails newIds pick).2 = some coll ∧
      (random_quote ((random_quote (some coll) tag fails newIds pick).2)
        tag fails' newIds' pick').2 = some coll := by
  have hseed : ∀ (f : Nat → Bool) (n : Nat → String),
      seed_quotes_if_empty coll tag f n = coll := by
    intro f n
    simp [seed_quotes_if_empty, h]
  refine ⟨hseed fails newIds, ?_⟩
  intro pick pick' fails' newIds'
  have h1 : (random_quote (some coll) tag fails newIds pick).2 = some coll := by
    rw [random_quote_state, hseed]
  refine ⟨h1, ?_⟩
  rw [h1, random_quote_state, hseed]

/-- Witness for C4 at a one-record collection and no tag filter. -/
theorem seed_noop_when_populated_witness :
    0 < count_documents [[("tags", Value.vlist ["a"])]] (tagFilter none) ∧
    seed_quotes_if_empty [[("tags", Value.vlist ["a"])]] none
      (fun _ => false) (fun _ => "64ff") = [[("tags", Value.vlist ["a"])]] :=
  ⟨by decide,
   (seed_noop_when_populated [[("tags", Value.vlist ["a"])]] none
     (fun _ => false) (fun _ => "64ff") (by decide)).1⟩

/-- C5: if after the seed-if-empty step no stored record matches the
filter, random retrieval fails with HTTP 404 and its fixed NotFound
message. -/
theorem random_quote_notfound (coll : List Doc) (tag : Option String)
    (fails : Nat → Bool) (newIds : Nat → String) (pick : Nat)
    (h : (seed_quotes_if_empty coll tag fails newIds).filter
          (tagFilter tag).matches = []) :
    (random_quote (some coll) tag fails newIds pick).1 =
      .error ⟨404, "No quotes available for the specified filter"⟩ := by
  simp [random_quote, h, sampleOne]

/-- Witness for C5: a collection whose only record lacks the filter tag,
with every seed insert failing, so nothing matches even after
seeding. -/
theorem random_quote_notfound_witness :
    (seed_quotes_if_empty [[("tags", Value.vlist ["a"])]]
        (some "nonexistent-tag-zzz") (fun _ => true)
        (fun _ => "64ff")).filter
      (tagFilter (some "nonexistent-tag-zzz")).matches = [] ∧
    (random_quote (some [[("tags", Value.vlist ["a"])]])
        (some "nonexistent-tag-zzz") (fun _ => true) (fun _ => "64ff")
        0).1 =
      .error ⟨404, "No quotes available for the specified filter"⟩ := by
  constructor
  · rfl
  · exact random_quote_notfound [[("tags", Value.vlist ["a"])]]
      (some "nonexistent-tag-zzz") (fun _ => true) (fun _ => "64ff") 0 rfl

/-- The seeding loop inserts, in order, exactly the catalog records whose
inserts do not fail, whatever the accumulator. -/
lemma foldl_seed_insert (fails : Nat → Bool) (newIds : Nat → String)
    (l : List (Nat × QuoteSchema)) (acc : List Doc) :
    l.foldl (fun acc p =>
        if fails p.1 then acc
        else (create_document acc p.2 (newIds p.1)).2) acc =
      acc ++ (l.filter (fun p => !fails p.1)).map
        (fun p => QuoteSchema.toDoc p.2 (newIds p.1)) := by
  induction l generalizing acc with
  | nil => simp
  | cons p l ih =>
    simp only [create_document] at ih ⊢
    by_cases hf : fails p.1
    · simp [List.foldl_cons, List.filter_cons, hf, ih]
    · simp [List.foldl_cons, List.filter_cons, hf, ih]

/-- C7: when the collection is empty for the filter, seeding attempts
every catalog record in the fixed source order, skipping exactly the
failing inserts — for every subset of failures; the routine is total
(errors are consumed by the per-record handler), so no insertion error
ever reaches the outer random-retrieval request. -/
theorem seed_best_effort (coll : List Doc) (tag : Option String)
    (fails : Nat → Bool) (newIds : Nat → String)
    (h : count_documents coll (tagFilter tag) = 0) :
    seed_quotes_if_empty coll tag fails newIds =
      coll ++ (seeds.enum.filter (fun p => !fails p.1)).map
        (fun p => QuoteSchema.toDoc p.2 (newIds p.1)) := by
  simp only [seed_quotes_if_empty, h, gt_iff_lt, Nat.lt_irrefl, if_false]
  exact foldl_seed_insert fails newIds seeds.enum coll

/-- Witness for C7: an empty collection with every insert failing —
seeding attempts all records, none lands, no error escapes. -/
theorem seed_best_effort_witness :
    count_documents [] (tagFilter none) = 0 ∧
    seed_quotes_if_empty [] none (fun _ => true) (fun _ => "64ff") =
      [] ++ (seeds.enum.filter
          (fun p => !(fun _ : Nat => true) p.1)).map
        (fun p => QuoteSchema.toDoc p.2 ((fun _ : Nat => "64ff") p.1)) :=
  ⟨rfl, seed_best_effort [] none (fun _ => true) (fun _ => "64ff") rfl⟩

/-- C8: the health endpoint is total by construction (it returns a
response body for every probe outcome, never an error), lists at most
the first 10 visible collection names, folds a probe failure into the
body as an error string truncated to at most 50 characters, and reports
only the presence of the two environment variables (its inputs carry
only their presence, not their values). -/
theorem test_database_safe (db : Option DbHandle)
    (listNames : Except String (List String)) (urlSet nameSet : Bool) :
    (test_database db listNames urlSet nameSet).backend = "✅ Running" ∧
    (test_database db listNames urlSet nameSet).collections.length ≤ 10 ∧
    (∀ h e, db = some h → listNames = .error e →
      (test_database db listNames urlSet nameSet).database =
        "⚠️  Connected but Error: " ++ pyTruncate e 50 ∧
      (pyTruncate e 50).length ≤ 50) ∧
    (test_database db listNames urlSet nameSet).database_url =
      some (if urlSet then "✅ Set" else "❌ Not Set") ∧
    (test_database db listNames urlSet nameSet).database_name =
      some (if nameSet then "✅ Set" else "❌ Not Set") := by
  refine ⟨?_, ?_, ?_, ?_, ?_⟩
  · cases db <;> cases listNames <;> rfl
  · cases db with
    | none => simp [test_database]
    | some h =>
      cases listNames with
      | error e => simp [test_database]
      | ok names =>
        simp [test_database, List.length_take]
  · rintro h e rfl rfl
    refine ⟨rfl, ?_⟩
    show (String.mk (e.data.take 50)).length ≤ 50
    have hlen : (String.mk (e.data.take 50)).length =
        (e.data.take 50).length := rfl
    rw [hlen, List.length_take]
    exact Nat.min_le_left _ _
  · cases db <;> cases listNames <;> rfl
  · cases db <;> cases listNames <;> rfl

/-- Witness for C8 at a concrete failing probe. -/
theorem test_database_safe_witness :
    (test_database (some ⟨some "quotesdb"⟩) (.error "connection reset by peer")
        true false).backend = "✅ Running" ∧
    (test_database (some ⟨some "quotesdb"⟩) (.error "connection reset by peer")
        true false).database =
      "⚠️  Connected but Error: " ++ pyTruncate "connection reset by peer" 50 ∧
    (test_database (some ⟨some "quotesdb"⟩) (.error "connection reset by peer")
        true false).database_url = some "✅ Set" ∧
    (test_database (some ⟨some "quotesdb"⟩) (.error "connection reset by peer")
        true false).database_name = some "❌ Not Set" := by
  have h := test_database_safe (some ⟨some "quotesdb"⟩)
    (.error "connection reset by peer") true false
  exact ⟨h.1, (h.2.2.1 ⟨some "quotesdb"⟩ "connection reset by peer" rfl rfl).1,
    h.2.2.2.1, h.2.2.2.2⟩

/-- C9: the boundary layer defaults `limit` to 50 and rejects every
value outside [1, 200] before the listing component runs; for an
in-range `limit` on a collection with at least `limit` matching
records, exactly `limit` records come back. -/
theorem limit_contract :
    parseLimit none = .ok 50 ∧
    (∀ v : Int, (v < 1 ∨ 200 < v) → parseLimit (some v) =
      .error "Input validation failed for query parameter limit") ∧
    (∀ v : Int, 1 ≤ v → v ≤ 200 → parseLimit (some v) = .ok v.toNat) ∧
    (∀ (coll : List Doc) (tag : Option String) (limit : Nat),
      limit ≤ (coll.filter (tagFilter tag).matches).length →
      ∃ docs, list_quotes (some coll) tag limit = .ok docs ∧
        docs.length = limit) := by
  refine ⟨rfl, ?_, ?_, ?_⟩
  · intro v hv
    have hno : ¬(1 ≤ v ∧ v ≤ 200) := by omega
    simp [parseLimit, hno]
  · intro v h1 h2
    simp [parseLimit, h1, h2]
  · intro coll tag limit hlen
    refine ⟨(get_documents coll (tagFilter tag) limit).map serialize_doc,
      rfl, ?_⟩
    simp only [List.length_map, get_documents, List.length_take]
    omega

/-- Witness for C9: limit 0 and 201 are rejected; limit 1 on a
collection with two matching records returns exactly one. -/
theorem limit_contract_witness :
    parseLimit (some 0) =
      .error "Input validation failed for query parameter limit" ∧
    parseLimit (some 201) =
      .error "Input validation failed for query parameter limit" ∧
    ∃ docs, list_quotes (some [[("tags", Value.vlist ["a"])],
        [("tags", Value.vlist ["a"])]]) none 1 = .ok docs ∧
      docs.length = 1 :=
  ⟨limit_contract.2.1 0 (by omega), limit_contract.2.1 201 (by omega),
   limit_contract.2.2.2 [[("tags", Value.vlist ["a"])],
     [("tags", Value.vlist ["a"])]] none 1 (by decide)⟩

end QuotesApi
